import Mathlib

/-!
Verification of the ecommerce backend (`src/main.py`) against its
natural-language specification.

Modelling conventions (shallow embedding):
- Python floats (prices, totals) are modelled as `Rat` (exact arithmetic).
- MongoDB collections are modelled as Lean lists holding the documents in
  insertion order; `_id` values are their 24-character hexadecimal string
  forms, generated by the store and canonically lowercase.
- `bson.ObjectId(s)` accepts exactly the 24-character hexadecimal strings
  and is case-insensitive on the hex digits (the canonical string form of
  the resulting id is lowercase); this is `parseObjectId` below.
- Fallible handlers return `Except` / pairs carrying the (status, detail)
  of the `HTTPException` raised by the code.
- External-library behaviours that the code relies on (Python `re.escape`,
  MongoDB `$regex` matching, FastAPI query-parameter validation) are
  modelled from those libraries' documented semantics, as noted at each
  definition.
-/

namespace ECommerce

/-- Entry of a product's `sizes` array (`class Size`): a size label and a
quantity (pydantic validates `quantity ≥ 0`). -/
structure Size where
  size : String
  quantity : Int
deriving DecidableEq

/-- A document of the `products` collection: `_id` (as its string form),
the fields of `class Product`, and the server-set creation timestamp. -/
structure ProductDoc where
  id : String
  name : String
  price : Rat
  sizes : List Size
  createdAt : Nat
deriving DecidableEq

/-- An element of an order document's `items` array as built by
`create_order`: the raw productid string from the request, the quantity,
the snapshotted product price and the line total. -/
structure ValidatedItem where
  productid : String
  qty : Int
  price : Rat
  item_total : Rat
deriving DecidableEq

/-- A document of the `orders` collection as inserted by `create_order`. -/
structure OrderDoc where
  id : String
  userId : String
  items : List ValidatedItem
  total : Rat
  status : String
  createdAt : Nat
deriving DecidableEq

/-- The `(status, detail)` pair of an `HTTPException`. -/
structure ErrResp where
  status : Nat
  detail : String
deriving DecidableEq

/-- Response model `PageInfo`: `next`/`previous` are optional ints. -/
structure PageInfo where
  next : Option Int
  limit : Int
  previous : Option Int
deriving DecidableEq

/-- Response model `ProductListItem`: exactly the fields `id`, `name`,
`price` (this is the whole list-view shape; `sizes` and the creation
timestamp do not appear). -/
structure ProductListItem where
  id : String
  name : String
  price : Rat
deriving DecidableEq

/-- Response model `ProductListResponse`. -/
structure ProductListResponse where
  data : List ProductListItem
  page : PageInfo
deriving DecidableEq

/-- Response model `ProductDetails` (name and id of a joined product). -/
structure ProductDetails where
  name : String
  id : String
deriving DecidableEq

/-- Response model `OrderItemDetail`. -/
structure OrderItemDetail where
  productDetails : ProductDetails
  qty : Int
deriving DecidableEq

/-- Response model `OrderDetail`. -/
structure OrderDetail where
  id : String
  items : List OrderItemDetail
  total : Rat
deriving DecidableEq

/-- Response model `OrderListResponse`. -/
structure OrderListResponse where
  data : List OrderDetail
  page : PageInfo
deriving DecidableEq

/-- The pagination helper `create_pagination_info` (src/main.py lines
97-106), translated line by line: `next_offset`, `previous_offset`, and
the final `PageInfo` whose `previous` repeats the `offset > 0` guard. -/
def create_pagination_info (offset limit total_count : Int) : PageInfo :=
  let next_offset : Option Int :=
    if offset + limit < total_count then some (offset + limit) else none
  let previous_offset : Option Int :=
    if 0 < offset then some (max 0 (offset - limit)) else none
  { next := next_offset
    limit := limit
    previous := if 0 < offset then previous_offset else none }

/-- C1: for every non-negative offset, positive limit and non-negative
total count, the page descriptor's `next` equals `offset + limit` exactly
when `offset + limit < totalCount` and is absent otherwise, and its
`previous` equals `max 0 (offset - limit)` exactly when `offset > 0` and
is absent otherwise. -/
theorem pagination_next_previous_correct (offset limit total_count : Int)
    (hoff : 0 ≤ offset) (hlim : 1 ≤ limit) (htot : 0 ≤ total_count) :
    ((create_pagination_info offset limit total_count).next
        = some (offset + limit) ↔ offset + limit < total_count)
    ∧ ((create_pagination_info offset limit total_count).next = none
        ↔ ¬ offset + limit < total_count)
    ∧ ((create_pagination_info offset limit total_count).previous
        = some (max 0 (offset - limit)) ↔ 0 < offset)
    ∧ ((create_pagination_info offset limit total_count).previous = none
        ↔ ¬ 0 < offset) := by
  unfold create_pagination_info
  by_cases hn : offset + limit < total_count <;>
    by_cases hp : 0 < offset <;>
      simp [hn, hp]

/-- Concrete instantiation of `pagination_next_previous_correct` at
offset 10, limit 5, total count 20. -/
theorem pagination_next_previous_correct_witness :
    ((0:Int) ≤ 10 ∧ (1:Int) ≤ 5 ∧ (0:Int) ≤ 20)
    ∧ (((create_pagination_info 10 5 20).next = some 15 ↔ (15:Int) < 20)
      ∧ ((create_pagination_info 10 5 20).next = none ↔ ¬ (15:Int) < 20)
      ∧ ((create_pagination_info 10 5 20).previous = some (max 0 5)
          ↔ (0:Int) < 10)
      ∧ ((create_pagination_info 10 5 20).previous = none
          ↔ ¬ (0:Int) < 10)) :=
  ⟨by decide,
   pagination_next_previous_correct 10 5 20 (by decide) (by decide) (by decide)⟩

/-- True exactly for hexadecimal digit characters (either case). -/
def isHexChar (c : Char) : Bool :=
  c.isDigit || ('a' ≤ c && c ≤ 'f') || ('A' ≤ c && c ≤ 'F')

/-- True exactly for the strings `bson.ObjectId` accepts: 24 hexadecimal
characters (documented behaviour of the bson library used at
src/main.py line 182). -/
def isValidObjectIdStr (s : String) : Bool :=
  s.length == 24 && s.toList.all isHexChar

/-- Lowercasing, computed on the underlying character list (ASCII, which
is all that hexadecimal id strings and PCRE caseless matching without
Unicode flags involve). -/
def lowerStr (s : String) : String := ⟨s.toList.map Char.toLower⟩

/-- The `ObjectId(item.productid)` construction at src/main.py line 182:
fails (raising, caught as the 400 case) on a malformed string, and
otherwise yields the id whose canonical string form is the lowercased
input. -/
def parseObjectId (s : String) : Option String :=
  if isValidObjectIdStr s then some (lowerStr s) else none

/-- The `products_collection.find_one({"_id": oid})` call at
src/main.py line 186: the store keeps documents in insertion order, with
canonical (lowercase) id strings. -/
def findOne (store : List ProductDoc) (oid : String) : Option ProductDoc :=
  store.find? (fun p => p.id == oid)

/-- An `OrderItem` of the request body (`productid`, `qty`), after
pydantic validation (`qty > 0`). -/
structure OrderItemIn where
  productid : String
  qty : Int
deriving DecidableEq

/-- A `CreateOrder` request body. -/
structure CreateOrderIn where
  userId : String
  items : List OrderItemIn
deriving DecidableEq

/-- The validation loop of `create_order` (src/main.py lines 177-198),
with the loop state (`total_amount`, `validated_items`) as accumulator
arguments. The second component instruments the loop with the list of
product ids passed to `find_one`, in call order (the loop performs no
lookup for an item whose `ObjectId` construction fails, and stops at the
first raised `HTTPException`). -/
def validateItemsAux (store : List ProductDoc) (total : Rat)
    (acc : List ValidatedItem) :
    List OrderItemIn → (Except ErrResp (List ValidatedItem × Rat)) × List String
  | [] => (.ok (acc, total), [])
  | it :: rest =>
    match parseObjectId it.productid with
    | none => (.error ⟨400, "Invalid product ID: " ++ it.productid⟩, [])
    | some oid =>
      match findOne store oid with
      | none => (.error ⟨404, "Product not found: " ++ it.productid⟩,
                 [it.productid])
      | some product =>
        let item_total := product.price * (it.qty : Rat)
        let step := validateItemsAux store (total + item_total)
          (acc ++ [⟨it.productid, it.qty, product.price, item_total⟩]) rest
        (step.fst, it.productid :: step.snd)

/-- The `create_order` handler (src/main.py lines 170-217): validate
every item, then insert exactly one order document with the computed
total, status `"created"` and creation timestamp. The generated `_id`
string and the timestamp are parameters. Returns the HTTP outcome
together with the resulting `orders` collection. -/
def create_order (store : List ProductDoc) (orders : List OrderDoc)
    (newId : String) (now : Nat) (req : CreateOrderIn) :
    (Except ErrResp String) × List OrderDoc :=
  match (validateItemsAux store 0 [] req.items).fst with
  | .error e => (.error e, orders)
  | .ok (items, total) =>
    (.ok newId,
     orders ++ [{ id := newId, userId := req.userId, items := items,
                  total := total, status := "created", createdAt := now }])

/-- Resolution of one order item as `create_order` performs it:
construct the `ObjectId`, then `find_one` on the products collection. -/
def resolveItem (store : List ProductDoc) (it : OrderItemIn) :
    Option ProductDoc :=
  (parseObjectId it.productid).bind (fun oid => findOne store oid)

/-- The validated-item record `create_order` builds for an item whose
resolved product is `p`. -/
def mkValidatedItem (p : ProductDoc) (it : OrderItemIn) : ValidatedItem :=
  ⟨it.productid, it.qty, p.price, p.price * (it.qty : Rat)⟩

/-- Unfolding of the validation loop when every item resolves: the loop
succeeds, appending the validated items to the accumulator, adding the
line totals to the running total, and looking up every item in order. -/
theorem validateItemsAux_ok (store : List ProductDoc)
    (f : OrderItemIn → ProductDoc) :
    ∀ (items : List OrderItemIn),
      (∀ it ∈ items, resolveItem store it = some (f it)) →
      ∀ (total : Rat) (acc : List ValidatedItem),
        validateItemsAux store total acc items =
          (.ok (acc ++ items.map (fun it => mkValidatedItem (f it) it),
                total + (items.map
                  (fun it => (f it).price * (it.qty : Rat))).sum),
           items.map (fun it => it.productid)) := by
  intro items
  induction items with
  | nil => intro _ total acc; simp [validateItemsAux]
  | cons it rest ih =>
    intro hres total acc
    have hit : resolveItem store it = some (f it) :=
      hres it (List.mem_cons_self it rest)
    have hrest : ∀ x ∈ rest, resolveItem store x = some (f x) :=
      fun x hx => hres x (List.mem_cons_of_mem it hx)
    unfold resolveItem at hit
    cases hpo : parseObjectId it.productid with
    | none => simp [hpo] at hit
    | some oid =>
      simp only [hpo, Option.some_bind] at hit
      simp only [validateItemsAux, hpo, hit,
        ih hrest (total + (f it).price * (it.qty : Rat))
          (acc ++ [⟨it.productid, it.qty, (f it).price,
                    (f it).price * (it.qty : Rat)⟩])]
      simp [mkValidatedItem, add_assoc, List.append_assoc]

/-- C2: an order-creation request whose items all resolve produces one
inserted order document whose items carry the snapshotted price and a
line total of price × qty, and whose total is the sum of the line
totals (equivalently, of price × qty over the items). `f` names, for
each item, the product the store resolves it to. -/
theorem create_order_total_correct (store : List ProductDoc)
    (orders : List OrderDoc) (newId : String) (now : Nat)
    (req : CreateOrderIn) (f : OrderItemIn → ProductDoc)
    (hres : ∀ it ∈ req.items, resolveItem store it = some (f it)) :
    ∃ doc : OrderDoc,
      create_order store orders newId now req = (.ok newId, orders ++ [doc])
      ∧ doc.items = req.items.map (fun it =>
          { productid := it.productid, qty := it.qty,
            price := (f it).price,
            item_total := (f it).price * (it.qty : Rat) })
      ∧ doc.total
          = (req.items.map (fun it => (f it).price * (it.qty : Rat))).sum
      ∧ doc.total = (doc.items.map (fun v => v.item_total)).sum := by
  refine ⟨{ id := newId, userId := req.userId,
            items := req.items.map (fun it => mkValidatedItem (f it) it),
            total := (req.items.map
              (fun it => (f it).price * (it.qty : Rat))).sum,
            status := "created", createdAt := now }, ?_, ?_, rfl, ?_⟩
  · unfold create_order
    rw [validateItemsAux_ok store f req.items hres 0 []]
    simp
  · rfl
  · simp [List.map_map, mkValidatedItem, Function.comp_def]

/-- Sample product with id all-a, price 10. -/
def prodA : ProductDoc := ⟨"aaaaaaaaaaaaaaaaaaaaaaaa", "Sneaker", 10, [], 0⟩

/-- Sample product with id all-b, price 5. -/
def prodB : ProductDoc := ⟨"bbbbbbbbbbbbbbbbbbbbbbbb", "Cap", 5, [], 1⟩

/-- Sample products collection. -/
def sampleStore : List ProductDoc := [prodA, prodB]

/-- Sample order items: 2 of `prodA` (price 10) and 3 of `prodB`
(price 5). -/
def sampleItems : List OrderItemIn :=
  [⟨"aaaaaaaaaaaaaaaaaaaaaaaa", 2⟩, ⟨"bbbbbbbbbbbbbbbbbbbbbbbb", 3⟩]

/-- The product each sample item resolves to. -/
def sampleResolve (it : OrderItemIn) : ProductDoc :=
  if it.productid = "aaaaaaaaaaaaaaaaaaaaaaaa" then prodA else prodB

/-- Concrete instantiation of `create_order_total_correct`: the order
with items 10.00×2 and 5.00×3 over `sampleStore`. -/
theorem create_order_total_correct_witness :
    (∀ it ∈ sampleItems,
        resolveItem sampleStore it = some (sampleResolve it))
    ∧ ∃ doc : OrderDoc,
        create_order sampleStore [] "cccccccccccccccccccccccc" 7
            ⟨"u1", sampleItems⟩
          = (.ok "cccccccccccccccccccccccc", [] ++ [doc])
        ∧ doc.items = sampleItems.map (fun it =>
            { productid := it.productid, qty := it.qty,
              price := (sampleResolve it).price,
              item_total := (sampleResolve it).price * (it.qty : Rat) })
        ∧ doc.total = (sampleItems.map
            (fun it => (sampleResolve it).price * (it.qty : Rat))).sum
        ∧ doc.total = (doc.items.map (fun v => v.item_total)).sum :=
  ⟨by decide,
   create_order_total_correct sampleStore [] "cccccccccccccccccccccccc" 7
     ⟨"u1", sampleItems⟩ sampleResolve (by decide)⟩

/-- Unfolding of the validation loop when a prefix of items resolves and
the next item has a malformed product id: the loop aborts with the 400
error naming that id, having looked up exactly the prefix. -/
theorem validateItemsAux_malformed (store : List ProductDoc)
    (f : OrderItemIn → ProductDoc) (bad : OrderItemIn)
    (rest : List OrderItemIn)
    (hbad : parseObjectId bad.productid = none) :
    ∀ (pre : List OrderItemIn),
      (∀ it ∈ pre, resolveItem store it = some (f it)) →
      ∀ (total : Rat) (acc : List ValidatedItem),
        validateItemsAux store total acc (pre ++ bad :: rest)
          = (.error ⟨400, "Invalid product ID: " ++ bad.productid⟩,
             pre.map (fun it => it.productid)) := by
  intro pre
  induction pre with
  | nil => intro _ total acc; simp [validateItemsAux, hbad]
  | cons it pre ih =>
    intro hres total acc
    have hit : resolveItem store it = some (f it) :=
      hres it (List.mem_cons_self it pre)
    have hpre : ∀ x ∈ pre, resolveItem store x = some (f x) :=
      fun x hx => hres x (List.mem_cons_of_mem it hx)
    unfold resolveItem at hit
    cases hpo : parseObjectId it.productid with
    | none => simp [hpo] at hit
    | some oid =>
      simp only [hpo, Option.some_bind] at hit
      simp [validateItemsAux, hpo, hit, ih hpre]

/-- Unfolding of the validation loop when a prefix of items resolves and
the next item is well-formed but matches no product: the loop aborts
with the 404 error naming that id, having looked up the prefix and the
failing item. -/
theorem validateItemsAux_missing (store : List ProductDoc)
    (f : OrderItemIn → ProductDoc) (bad : OrderItemIn)
    (rest : List OrderItemIn) (oid : String)
    (hoid : parseObjectId bad.productid = some oid)
    (hmiss : findOne store oid = none) :
    ∀ (pre : List OrderItemIn),
      (∀ it ∈ pre, resolveItem store it = some (f it)) →
      ∀ (total : Rat) (acc : List ValidatedItem),
        validateItemsAux store total acc (pre ++ bad :: rest)
          = (.error ⟨404, "Product not found: " ++ bad.productid⟩,
             pre.map (fun it => it.productid) ++ [bad.productid]) := by
  intro pre
  induction pre with
  | nil => intro _ total acc; simp [validateItemsAux, hoid, hmiss]
  | cons it pre ih =>
    intro hres total acc
    have hit : resolveItem store it = some (f it) :=
      hres it (List.mem_cons_self it pre)
    have hpre : ∀ x ∈ pre, resolveItem store x = some (f x) :=
      fun x hx => hres x (List.mem_cons_of_mem it hx)
    unfold resolveItem at hit
    cases hpo : parseObjectId it.productid with
    | none => simp [hpo] at hit
    | some oid2 =>
      simp only [hpo, Option.some_bind] at hit
      simp [validateItemsAux, hpo, hit, ih hpre]

/-- C3 counterexample: a request whose first item is well-formed but
matches no product and whose second item is malformed fails with the
404 for the first item — not with the 400 naming the malformed id that
the claim, read as stated ("if any item's productid is a malformed
identifier the operation fails with a 400"), requires. -/
theorem create_order_mixed_invalid_counterexample :
    create_order [] [] "cccccccccccccccccccccccc" 0
        ⟨"u1", [⟨"dddddddddddddddddddddddd", 1⟩, ⟨"badid", 1⟩]⟩
      = (.error ⟨404, "Product not found: dddddddddddddddddddddddd"⟩, [])
    ∧ (404 : Nat) ≠ 400 := by
  exact ⟨rfl, by decide⟩

/-- C3 (amended): order-creation failures are determined by the earliest
invalid item in list order: if every item before `bad` resolves, then a
malformed `bad.productid` yields the 400 error naming it and a
well-formed but unmatched `bad.productid` yields the 404 error naming
it, and in either case the orders collection is returned unchanged (the
single insert never happens). -/
theorem create_order_failure_cases (store : List ProductDoc)
    (orders : List OrderDoc) (newId : String) (now : Nat)
    (req : CreateOrderIn) (pre : List OrderItemIn) (bad : OrderItemIn)
    (rest : List OrderItemIn) (f : OrderItemIn → ProductDoc)
    (hitems : req.items = pre ++ bad :: rest)
    (hpre : ∀ it ∈ pre, resolveItem store it = some (f it)) :
    (parseObjectId bad.productid = none →
      create_order store orders newId now req
        = (.error ⟨400, "Invalid product ID: " ++ bad.productid⟩, orders))
    ∧ (∀ oid, parseObjectId bad.productid = some oid →
        findOne store oid = none →
        create_order store orders newId now req
          = (.error ⟨404, "Product not found: " ++ bad.productid⟩,
             orders)) := by
  constructor
  · intro hbad
    unfold create_order
    rw [hitems, validateItemsAux_malformed store f bad rest hbad pre hpre 0 []]
  · intro oid hoid hmiss
    unfold create_order
    rw [hitems,
      validateItemsAux_missing store f bad rest oid hoid hmiss pre hpre 0 []]

/-- Concrete instantiation of `create_order_failure_cases`: over
`sampleStore`, a request whose first item resolves and whose second item
is malformed. -/
theorem create_order_failure_cases_witness :
    ((⟨"u1", [⟨"aaaaaaaaaaaaaaaaaaaaaaaa", 1⟩, ⟨"badid", 1⟩]⟩
        : CreateOrderIn).items
      = [⟨"aaaaaaaaaaaaaaaaaaaaaaaa", 1⟩]
          ++ (⟨"badid", 1⟩ : OrderItemIn) :: [])
    ∧ (∀ it ∈ [(⟨"aaaaaaaaaaaaaaaaaaaaaaaa", 1⟩ : OrderItemIn)],
        resolveItem sampleStore it = some (sampleResolve it))
    ∧ ((parseObjectId (⟨"badid", 1⟩ : OrderItemIn).productid = none →
        create_order sampleStore [] "cccccccccccccccccccccccc" 0
            ⟨"u1", [⟨"aaaaaaaaaaaaaaaaaaaaaaaa", 1⟩, ⟨"badid", 1⟩]⟩
          = (.error ⟨400, "Invalid product ID: "
              ++ (⟨"badid", 1⟩ : OrderItemIn).productid⟩, []))
      ∧ (∀ oid,
          parseObjectId (⟨"badid", 1⟩ : OrderItemIn).productid = some oid →
          findOne sampleStore oid = none →
          create_order sampleStore [] "cccccccccccccccccccccccc" 0
              ⟨"u1", [⟨"aaaaaaaaaaaaaaaaaaaaaaaa", 1⟩, ⟨"badid", 1⟩]⟩
            = (.error ⟨404, "Product not found: "
                ++ (⟨"badid", 1⟩ : OrderItemIn).productid⟩, []))) :=
  ⟨by decide, by decide,
   create_order_failure_cases sampleStore [] "cccccccccccccccccccccccc" 0
     ⟨"u1", [⟨"aaaaaaaaaaaaaaaaaaaaaaaa", 1⟩, ⟨"badid", 1⟩]⟩
     [⟨"aaaaaaaaaaaaaaaaaaaaaaaa", 1⟩] ⟨"badid", 1⟩ [] sampleResolve
     (by decide) (by decide)⟩

/-- C10: validation stops at the earliest invalid item: if every item
before the malformed item `bad` resolves, the response is the 400 error
naming `bad` (whatever follows it — in particular later items that
reference missing products), and the product lookups performed are
exactly those for the items before `bad`: nothing after the first
failure is looked up. -/
theorem create_order_error_is_first_failure (store : List ProductDoc)
    (orders : List OrderDoc) (newId : String) (now : Nat)
    (req : CreateOrderIn) (pre : List OrderItemIn) (bad : OrderItemIn)
    (rest : List OrderItemIn) (f : OrderItemIn → ProductDoc)
    (hitems : req.items = pre ++ bad :: rest)
    (hpre : ∀ it ∈ pre, resolveItem store it = some (f it))
    (hbad : parseObjectId bad.productid = none) :
    create_order store orders newId now req
      = (.error ⟨400, "Invalid product ID: " ++ bad.productid⟩, orders)
    ∧ (validateItemsAux store 0 [] req.items).snd
        = pre.map (fun it => it.productid) := by
  constructor
  · unfold create_order
    rw [hitems, validateItemsAux_malformed store f bad rest hbad pre hpre 0 []]
  · rw [hitems, validateItemsAux_malformed store f bad rest hbad pre hpre 0 []]

/-- Concrete instantiation of `create_order_error_is_first_failure`:
first item resolves, second is malformed, third is well-formed but
missing; the result is the 400 for the second item and only the first
item was ever looked up. -/
theorem create_order_error_is_first_failure_witness :
    ((⟨"u2", [⟨"aaaaaaaaaaaaaaaaaaaaaaaa", 1⟩, ⟨"nothex", 1⟩,
              ⟨"eeeeeeeeeeeeeeeeeeeeeeee", 2⟩]⟩ : CreateOrderIn).items
      = [⟨"aaaaaaaaaaaaaaaaaaaaaaaa", 1⟩]
          ++ (⟨"nothex", 1⟩ : OrderItemIn)
              :: [⟨"eeeeeeeeeeeeeeeeeeeeeeee", 2⟩])
    ∧ (∀ it ∈ [(⟨"aaaaaaaaaaaaaaaaaaaaaaaa", 1⟩ : OrderItemIn)],
        resolveItem sampleStore it = some (sampleResolve it))
    ∧ parseObjectId (⟨"nothex", 1⟩ : OrderItemIn).productid = none
    ∧ (create_order sampleStore [] "cccccccccccccccccccccccc" 0
          ⟨"u2", [⟨"aaaaaaaaaaaaaaaaaaaaaaaa", 1⟩, ⟨"nothex", 1⟩,
                  ⟨"eeeeeeeeeeeeeeeeeeeeeeee", 2⟩]⟩
        = (.error ⟨400, "Invalid product ID: "
            ++ (⟨"nothex", 1⟩ : OrderItemIn).productid⟩, [])
      ∧ (validateItemsAux sampleStore 0 []
          (⟨"u2", [⟨"aaaaaaaaaaaaaaaaaaaaaaaa", 1⟩, ⟨"nothex", 1⟩,
                   ⟨"eeeeeeeeeeeeeeeeeeeeeeee", 2⟩]⟩
            : CreateOrderIn).items).snd
        = [(⟨"aaaaaaaaaaaaaaaaaaaaaaaa", 1⟩ : OrderItemIn)].map
            (fun it => it.productid)) :=
  ⟨by decide, by decide, by decide,
   create_order_error_is_first_failure sampleStore []
     "cccccccccccccccccccccccc" 0
     ⟨"u2", [⟨"aaaaaaaaaaaaaaaaaaaaaaaa", 1⟩, ⟨"nothex", 1⟩,
             ⟨"eeeeeeeeeeeeeeeeeeeeeeee", 2⟩]⟩
     [⟨"aaaaaaaaaaaaaaaaaaaaaaaa", 1⟩] ⟨"nothex", 1⟩
     [⟨"eeeeeeeeeeeeeeeeeeeeeeee", 2⟩] sampleResolve
     (by decide) (by decide) (by decide)⟩

/-- The characters Python's `re.escape` escapes (documented behaviour of
the standard library used at src/main.py line 142; since Python 3.7 the
escaped set is exactly the characters that can have special meaning in a
regular expression). -/
def reSpecialChars : List Char :=
  ['(', ')', '[', ']', '\x7b', '\x7d', '?', '*', '+', '-', '|', '^', '$',
   '\\', '.', '&', '~', '#', ' ', '\t', '\n', '\r', '\x0b', '\x0c']

/-- Whether `re.escape` escapes the character. -/
def reSpecial (c : Char) : Bool := reSpecialChars.contains c

/-- Python's `re.escape` on the character list of the filter string:
every special character is preceded by a backslash. -/
def reEscape : List Char → List Char
  | [] => []
  | c :: cs => (if reSpecial c then ['\\', c] else [c]) ++ reEscape cs

/-- A regular-expression atom of the fragment modelled here: a literal
character or the any-character metacharacter `.`. -/
inductive RAtom
  | lit (c : Char)
  | dot
deriving DecidableEq

/-- A scanned pattern token: an atom, or the Kleene-star metacharacter
`*`. -/
inductive RTok
  | atom (a : RAtom)
  | star
deriving DecidableEq

/-- Scanning a pattern: a backslash makes the following character a
literal atom; unescaped `.` and `*` keep their metacharacter readings; a
trailing backslash is a malformed pattern. -/
def tokenize : List Char → Option (List RTok)
  | [] => some []
  | c :: rest =>
    if c = '\\' then
      match rest with
      | [] => none
      | d :: rest2 =>
        (tokenize rest2).map (fun ts => RTok.atom (RAtom.lit d) :: ts)
    else if c = '.' then
      (tokenize rest).map (fun ts => RTok.atom RAtom.dot :: ts)
    else if c = '*' then (tokenize rest).map (fun ts => RTok.star :: ts)
    else (tokenize rest).map (fun ts => RTok.atom (RAtom.lit c) :: ts)

/-- A pattern piece: an atom, possibly starred. -/
structure RPiece where
  atom : RAtom
  star : Bool
deriving DecidableEq

/-- Attaching each `*` token to the atom before it; a `*` with no
preceding atom is a malformed pattern. -/
def group : List RTok → Option (List RPiece)
  | [] => some []
  | RTok.star :: _ => none
  | [RTok.atom a] => some [⟨a, false⟩]
  | RTok.atom a :: RTok.star :: rest =>
    (group rest).map (fun ps => ⟨a, true⟩ :: ps)
  | RTok.atom a :: RTok.atom b :: rest =>
    (group (RTok.atom b :: rest)).map (fun ps => ⟨a, false⟩ :: ps)

/-- Parsing a pattern of the modelled regular-expression fragment. -/
def parseMongoRegex (pat : List Char) : Option (List RPiece) :=
  (tokenize pat).bind group

/-- Caseless atom matching, as PCRE does with the `i` option: literal
characters compare lowercased, `.` matches any character. -/
def atomMatchesCI : RAtom → Char → Bool
  | RAtom.lit c, d => c.toLower == d.toLower
  | RAtom.dot, _ => true

/-- Matching of a starred atom: zero or more occurrences of the atom,
then the continuation `m` on the remaining text. -/
def tryStar (m : List Char → Bool) (a : RAtom) : List Char → Bool
  | [] => m []
  | c :: cs => m (c :: cs) || (atomMatchesCI a c && tryStar m a cs)

/-- Whether the pattern matches some initial segment of the text. -/
def matchHead : List RPiece → List Char → Bool
  | [], _ => true
  | ⟨_, false⟩ :: _, [] => false
  | ⟨a, false⟩ :: ps, c :: cs => atomMatchesCI a c && matchHead ps cs
  | ⟨a, true⟩ :: ps, cs => tryStar (matchHead ps) a cs

/-- Unanchored (substring) pattern matching, the semantics MongoDB's
`$regex` operator applies to a non-anchored pattern (documented
behaviour of the query built at src/main.py line 142). -/
def searchAll (ps : List RPiece) : List Char → Bool
  | [] => matchHead ps []
  | c :: cs => matchHead ps (c :: cs) || searchAll ps cs

/-- The name condition `\x7b"$regex": re.escape(name), "$options": "i"\x7d`
of src/main.py line 142, applied to a document's name. -/
def mongoNameFilter (filt nam : String) : Bool :=
  match parseMongoRegex (reEscape filt.toList) with
  | none => false
  | some ps => searchAll ps nam.toList

/-- The query filter built by `list_products` (src/main.py lines
138-146), as the predicate it selects: the name condition and the
`sizes.size` equality condition (an array element with that label),
combined with logical AND; a missing or empty (falsy) parameter adds no
condition. -/
def productQueryMatches (nameF sizeF : Option String) (p : ProductDoc) :
    Bool :=
  (match nameF with
   | none => true
   | some f => if f = "" then true else mongoNameFilter f p.name)
  && (match sizeF with
      | none => true
      | some s =>
        if s = "" then true else p.sizes.any (fun e => e.size == s))

/-- The pattern pieces of a fully escaped pattern: each source character
as an unstarred literal atom. -/
def litPieces (l : List Char) : List RPiece :=
  l.map (fun c => ⟨RAtom.lit c, false⟩)

theorem reSpecial_backslash : reSpecial '\\' = true := by decide

theorem reSpecial_dot : reSpecial '.' = true := by decide

theorem reSpecial_star : reSpecial '*' = true := by decide

/-- Scanning an escaped pattern yields exactly one literal atom per
source character. -/
theorem tokenize_reEscape : ∀ l : List Char,
    tokenize (reEscape l) = some (l.map (fun c => RTok.atom (RAtom.lit c)))
  | [] => rfl
  | c :: cs => by
    by_cases hs : reSpecial c = true
    · simp [reEscape, hs, tokenize, tokenize_reEscape cs]
    · have h1 : c ≠ '\\' := fun h => hs (h ▸ reSpecial_backslash)
      have h2 : c ≠ '.' := fun h => hs (h ▸ reSpecial_dot)
      have h3 : c ≠ '*' := fun h => hs (h ▸ reSpecial_star)
      rw [reEscape, if_neg (by simp [hs]), List.singleton_append,
        tokenize.eq_def]
      simp [h1, h2, h3, tokenize_reEscape cs]

/-- Grouping a token list of atoms alone stars nothing. -/
theorem group_lits : ∀ l : List Char,
    group (l.map (fun c => RTok.atom (RAtom.lit c))) = some (litPieces l)
  | [] => rfl
  | c :: cs => by
    cases cs with
    | nil => rfl
    | cons d ds =>
      have ih := group_lits (d :: ds)
      simp only [List.map_cons] at ih
      simp only [List.map_cons, group, ih]
      simp [litPieces]

/-- On unstarred literal pieces, head matching is caseless equality with
an initial segment of the text. -/
theorem matchHead_lits : ∀ (l cs : List Char),
    matchHead (litPieces l) cs
      = List.isPrefixOf (l.map Char.toLower) (cs.map Char.toLower)
  | [], _ => by simp [litPieces, matchHead, List.isPrefixOf]
  | c :: l, [] => by simp [litPieces, matchHead, List.isPrefixOf]
  | c :: l, d :: cs => by
    have ih := matchHead_lits l cs
    simp only [litPieces, List.map_cons] at ih ⊢
    simp [matchHead, List.isPrefixOf, atomMatchesCI, ih]

/-- On unstarred literal pieces, unanchored matching is caseless
substring containment. -/
theorem searchAll_lits : ∀ (l t : List Char),
    searchAll (litPieces l) t = true
      ↔ (l.map Char.toLower) <:+: (t.map Char.toLower)
  | l, [] => by
    simp [searchAll, matchHead_lits l []]
  | l, c :: t => by
    simp only [searchAll, matchHead_lits l (c :: t), Bool.or_eq_true,
      searchAll_lits l t, List.map_cons, List.infix_cons_iff,
      List.isPrefixOf_iff_prefix]

/-- C4: the name filter of product listing selects exactly the products
whose name contains the filter as a literal substring, compared
case-insensitively; since the pattern is escaped before matching, regex
metacharacters such as `.` and `*` act as literal characters, so a
filter "a.b" only matches a literal "a.b" substring (the containment on
the right is on literal characters, never pattern syntax). -/
theorem name_filter_literal_substring (f : String) (p : ProductDoc) :
    productQueryMatches (some f) none p = true
      ↔ (f.toList.map Char.toLower) <:+: (p.name.toList.map Char.toLower) := by
  unfold productQueryMatches
  by_cases hf : f = ""
  · subst hf
    simp [List.nil_infix]
  · simp [hf, mongoNameFilter, parseMongoRegex, tokenize_reEscape,
      group_lits, searchAll_lits]

/-- Strict lexicographic comparison of characters by code point. -/
def charLt (a b : Char) : Bool := decide (a.toNat < b.toNat)

/-- Strict lexicographic comparison of character lists. -/
def charListLt : List Char → List Char → Bool
  | _, [] => false
  | [], _ :: _ => true
  | a :: as, b :: bs => charLt a b || (a == b && charListLt as bs)

/-- Strict id-string comparison: MongoDB compares ObjectIds bytewise,
which on their fixed-length lowercase hex string forms is lexicographic
order. -/
def idLt (a b : String) : Bool := charListLt a.toList b.toList

/-- Ascending `_id` order on product documents, the order of
`.sort("_id", 1)` at src/main.py line 155. -/
def prodIdLe (a b : ProductDoc) : Prop := idLt a.id b.id = true ∨ a.id = b.id

instance : DecidableRel prodIdLe :=
  fun a b => inferInstanceAs (Decidable (idLt a.id b.id = true ∨ a.id = b.id))

/-- The `list_products` handler (src/main.py lines 127-168) after query
validation: count the matching documents, fetch them sorted ascending
by `_id`, skip `offset`, take `limit`, and shape each into the
`(id, name, price)` response item. -/
def list_products (store : List ProductDoc) (nameF sizeF : Option String)
    (limit offset : Nat) : ProductListResponse :=
  let matched := store.filter (productQueryMatches nameF sizeF)
  let total_count := matched.length
  let docs := ((List.insertionSort prodIdLe matched).drop offset).take limit
  { data := docs.map (fun p => ⟨p.id, p.name, p.price⟩)
    page := create_pagination_info (Int.ofNat offset) (Int.ofNat limit)
      (Int.ofNat total_count) }

/-- C6: when the store's documents carry strictly increasing ids in
insertion order (as generated ObjectIds do), the listed products are the
matching documents in insertion order, sliced by offset/limit, and each
returned item is exactly an `(id, name, price)` record (the fields of
`ProductListItem`; sizes and the creation timestamp are absent from the
list view). -/
theorem list_products_order_slice_fields (store : List ProductDoc)
    (nameF sizeF : Option String) (limit offset : Nat)
    (hsorted : store.Pairwise (fun a b => idLt a.id b.id = true)) :
    (list_products store nameF sizeF limit offset).data
      = (((store.filter (productQueryMatches nameF sizeF)).drop
            offset).take limit).map (fun p => ⟨p.id, p.name, p.price⟩) := by
  have hm : (store.filter (productQueryMatches nameF sizeF)).Pairwise
      (fun a b => idLt a.id b.id = true) := hsorted.filter _
  have hsort : List.Sorted prodIdLe
      (store.filter (productQueryMatches nameF sizeF)) :=
    hm.imp (fun h => Or.inl h)
  simp only [list_products, hsort.insertionSort_eq]

/-- Sample product with id all-9, price 3. -/
def prodC : ProductDoc := ⟨"999999999999999999999999", "Hat", 3, [], 2⟩

/-- Sample store of three products with ids increasing in insertion
order. -/
def sortedStore : List ProductDoc := [prodC, prodA, prodB]

/-- Concrete instantiation of `list_products_order_slice_fields` on a
three-product store, offset 1 and limit 2. -/
theorem list_products_order_slice_fields_witness :
    sortedStore.Pairwise (fun a b => idLt a.id b.id = true)
    ∧ (list_products sortedStore none none 2 1).data
      = (((sortedStore.filter (productQueryMatches none none)).drop 1).take
          2).map (fun p => ⟨p.id, p.name, p.price⟩) :=
  ⟨by decide,
   list_products_order_slice_fields sortedStore none none 2 1 (by decide)⟩

/-- The per-order `$lookup` sub-pipeline (src/main.py lines 232-251):
the products whose id string (`$toString` of `$_id`) occurs among the
order items' productids. -/
def lookupProductDetails (products : List ProductDoc)
    (items : List ValidatedItem) : List ProductDoc :=
  products.filter (fun p => items.any (fun it => it.productid == p.id))

/-- The `product_map` dictionary comprehension keyed by id string and
its `.get` (src/main.py lines 260, 265): later entries overwrite
earlier ones, so lookup yields the last matching entry. -/
def productMapGet (details : List ProductDoc) (pid : String) :
    Option ProductDoc :=
  details.reverse.find? (fun p => p.id == pid)

/-- Building one order's response items (src/main.py lines 263-274):
each item whose productid resolves in the product map is kept, enriched
with the product's name and the item's productid; an unresolved item is
skipped. -/
def buildOrderItems (products : List ProductDoc)
    (items : List ValidatedItem) : List OrderItemDetail :=
  items.filterMap (fun it =>
    (productMapGet (lookupProductDetails products items) it.productid).map
      (fun p => ⟨⟨p.name, it.productid⟩, it.qty⟩))

/-- Ascending `_id` order on order documents, the order of the `$sort`
stage at src/main.py line 229. -/
def orderIdLe (a b : OrderDoc) : Prop := idLt a.id b.id = true ∨ a.id = b.id

instance : DecidableRel orderIdLe :=
  fun a b => inferInstanceAs (Decidable (idLt a.id b.id = true ∨ a.id = b.id))

/-- The aggregation stages before the `$lookup` (src/main.py lines
227-231): `$match` on userId, `$sort` by `_id` ascending, `$skip`
offset, `$limit` limit. -/
def pagedUserOrders (orders : List OrderDoc) (uid : String)
    (limit offset : Nat) : List OrderDoc :=
  ((List.insertionSort orderIdLe
      (orders.filter (fun o => o.userId == uid))).drop offset).take limit

/-- The `get_user_orders` handler (src/main.py lines 219-289) after
query validation: run the pipeline, build each order's detail (enriched
items and the stored total), and attach a page descriptor computed from
the count of all the user's orders. -/
def get_user_orders (products : List ProductDoc) (orders : List OrderDoc)
    (uid : String) (limit offset : Nat) : OrderListResponse :=
  let total_count := (orders.filter (fun o => o.userId == uid)).length
  { data := (pagedUserOrders orders uid limit offset).map (fun od =>
      { id := od.id, items := buildOrderItems products od.items,
        total := od.total })
    page := create_pagination_info (Int.ofNat offset) (Int.ofNat limit)
      (Int.ofNat total_count) }

/-- Finding with predicate `r` in a list filtered by a predicate `q`
that `r` entails is finding in the unfiltered list. -/
theorem find?_filter_imp (q r : α → Bool)
    (himp : ∀ x, r x = true → q x = true) :
    ∀ l : List α, (l.filter q).find? r = l.find? r
  | [] => rfl
  | x :: l => by
    by_cases hq : q x = true
    · rw [List.filter_cons_of_pos hq]
      by_cases hr : r x = true
      · simp [List.find?, hr]
      · simp only [Bool.not_eq_true] at hr
        simp [List.find?, hr, find?_filter_imp q r himp l]
    · have hr : r x = false := by
        cases hrx : r x with
        | false => rfl
        | true => exact absurd (himp x hrx) hq
      rw [List.filter_cons_of_neg hq]
      simp [List.find?, hr, find?_filter_imp q r himp l]

/-- For an item of the order, the product-map lookup over the
`$lookup` result equals the last-match lookup over the whole products
collection. -/
theorem productMapGet_lookup (products : List ProductDoc)
    (items : List ValidatedItem) (it : ValidatedItem) (hit : it ∈ items) :
    productMapGet (lookupProductDetails products items) it.productid
      = products.reverse.find? (fun p => p.id == it.productid) := by
  unfold productMapGet lookupProductDetails
  rw [← List.filter_reverse]
  refine find?_filter_imp _ _ ?_ products.reverse
  intro p hp
  have hid : p.id = it.productid := by simpa using hp
  simp only [List.any_eq_true]
  exact ⟨it, hit, by simp [hid]⟩

/-- `buildOrderItems`, rephrased per item: an item is kept exactly when
some product carries its id, and is then enriched with that (last such)
product's current name. -/
theorem buildOrderItems_eq (products : List ProductDoc)
    (items : List ValidatedItem) :
    buildOrderItems products items = items.filterMap (fun it =>
      (products.reverse.find? (fun p => p.id == it.productid)).map
        (fun p => ⟨⟨p.name, it.productid⟩, it.qty⟩)) := by
  unfold buildOrderItems
  exact List.filterMap_congr (fun it hit => by
    rw [productMapGet_lookup products items it hit])

/-- C5: for every order selected by the pipeline, the response contains
a detail for it that succeeds as a whole: its items are exactly the
order's items whose productid resolves to a product of the current
products collection — an item resolving to no product is silently
omitted (`find?` is `none` and `filterMap` drops it) — and each kept
item is enriched with the current product name and the item's
productid. -/
theorem get_user_orders_drops_unresolved (products : List ProductDoc)
    (orders : List OrderDoc) (uid : String) (limit offset : Nat)
    (od : OrderDoc) (hod : od ∈ pagedUserOrders orders uid limit offset) :
    ∃ d ∈ (get_user_orders products orders uid limit offset).data,
      d.id = od.id ∧ d.total = od.total
      ∧ d.items = od.items.filterMap (fun it =>
          (products.reverse.find? (fun p => p.id == it.productid)).map
            (fun p => ⟨⟨p.name, it.productid⟩, it.qty⟩)) := by
  refine ⟨⟨od.id, buildOrderItems products od.items, od.total⟩, ?_,
    rfl, rfl, buildOrderItems_eq products od.items⟩
  simp only [get_user_orders, List.mem_map]
  exact ⟨od, hod, rfl⟩

/-- A sample stored order for user "u1": one line item resolving to
`prodA` and one line item whose product id matches no product. -/
def sampleOrderDoc : OrderDoc :=
  ⟨"ffffffffffffffffffffffff", "u1",
   [⟨"aaaaaaaaaaaaaaaaaaaaaaaa", 2, 10, 20⟩,
    ⟨"dddddddddddddddddddddddd", 1, 5, 5⟩],
   25, "created", 3⟩

/-- Concrete instantiation of `get_user_orders_drops_unresolved`: the
second line item references a product absent from `sampleStore` and is
dropped, the first is enriched with the current name, and the request
succeeds. -/
theorem get_user_orders_drops_unresolved_witness :
    sampleOrderDoc ∈ pagedUserOrders [sampleOrderDoc] "u1" 10 0
    ∧ ∃ d ∈ (get_user_orders sampleStore [sampleOrderDoc] "u1" 10 0).data,
        d.id = sampleOrderDoc.id ∧ d.total = sampleOrderDoc.total
        ∧ d.items = sampleOrderDoc.items.filterMap (fun it =>
            (sampleStore.reverse.find?
                (fun p => p.id == it.productid)).map
              (fun p => ⟨⟨p.name, it.productid⟩, it.qty⟩)) :=
  ⟨by decide,
   get_user_orders_drops_unresolved sampleStore [sampleOrderDoc] "u1" 10 0
     sampleOrderDoc (by decide)⟩

/-- C9: the totals returned by user-order retrieval are exactly the
stored totals of the selected order documents — the enrichment never
recomputes them, so a response whose items were partially dropped still
reports the full stored total (the right-hand side does not depend on
the products collection at all). -/
theorem get_user_orders_totals_unchanged (products : List ProductDoc)
    (orders : List OrderDoc) (uid : String) (limit offset : Nat) :
    ((get_user_orders products orders uid limit offset).data).map
        (fun d => d.total)
      = (pagedUserOrders orders uid limit offset).map (fun od => od.total) := by
  simp [get_user_orders, List.map_map, Function.comp_def]

/-- A query-parameter validation failure: the parameter it concerns and
the violated-constraint message. -/
structure ParamError where
  field : String
  msg : String
deriving DecidableEq

/-- Modelled from FastAPI's documented handling of the
`Query(10, ge=1, le=100)` declaration for `limit` (src/main.py lines
131 and 222): each violated bound contributes a validation error naming
the parameter. -/
def checkLimitParam (limit : Int) : List ParamError :=
  if limit < 1 then
    [⟨"limit", "Input should be greater than or equal to 1"⟩]
  else if 100 < limit then
    [⟨"limit", "Input should be less than or equal to 100"⟩]
  else []

/-- Modelled from FastAPI's documented handling of the `Query(0, ge=0)`
declaration for `offset` (src/main.py lines 132 and 223). -/
def checkOffsetParam (offset : Int) : List ParamError :=
  if offset < 0 then
    [⟨"offset", "Input should be greater than or equal to 0"⟩]
  else []

/-- Modelled from FastAPI's documented request-validation behaviour: when
any declared query-parameter constraint is violated, the request is
rejected with HTTP status 422 (unprocessable entity) carrying the
collected errors, and the route handler never runs; otherwise the
handler runs with the validated values. -/
def validatePageParams (limit offset : Int) :
    Except (Nat × List ParamError) (Nat × Nat) :=
  let errs := checkLimitParam limit ++ checkOffsetParam offset
  if errs.isEmpty then Except.ok (limit.toNat, offset.toNat)
  else Except.error (422, errs)

/-- The full `GET /products` request path: query-parameter validation,
then the `list_products` handler. -/
def listProductsEndpoint (store : List ProductDoc)
    (nameF sizeF : Option String) (limit offset : Int) :
    Except (Nat × List ParamError) ProductListResponse :=
  (validatePageParams limit offset).map
    (fun lo => list_products store nameF sizeF lo.fst lo.snd)

/-- The full `GET /orders/:user_id` request path: query-parameter
validation, then the `get_user_orders` handler. -/
def getUserOrdersEndpoint (products : List ProductDoc)
    (orders : List OrderDoc) (uid : String) (limit offset : Int) :
    Except (Nat × List ParamError) OrderListResponse :=
  (validatePageParams limit offset).map
    (fun lo => get_user_orders products orders uid lo.fst lo.snd)

/-- Every error `checkLimitParam` produces names the `limit` field. -/
theorem checkLimitParam_fields (limit : Int) :
    ∀ e ∈ checkLimitParam limit, e.field = "limit" := by
  intro e he
  unfold checkLimitParam at he
  by_cases h1 : limit < 1
  · simp [h1] at he; simp [he]
  · by_cases h2 : 100 < limit <;> simp [h1, h2] at he; simp [he]

/-- Every error `checkOffsetParam` produces names the `offset` field. -/
theorem checkOffsetParam_fields (offset : Int) :
    ∀ e ∈ checkOffsetParam offset, e.field = "offset" := by
  intro e he
  unfold checkOffsetParam at he
  by_cases h1 : offset < 0 <;> simp [h1] at he
  simp [he]

/-- An out-of-range limit yields an error naming `limit`. -/
theorem checkLimitParam_invalid (limit : Int)
    (h : limit < 1 ∨ 100 < limit) :
    ∃ e ∈ checkLimitParam limit, e.field = "limit" := by
  unfold checkLimitParam
  rcases h with h | h
  · rw [if_pos h]; exact ⟨_, List.mem_singleton.mpr rfl, rfl⟩
  · have h1 : ¬ limit < 1 := by omega
    rw [if_neg h1, if_pos h]; exact ⟨_, List.mem_singleton.mpr rfl, rfl⟩

/-- C7 counterexample: a `GET /products` request with limit 0 is
rejected with status 422 (FastAPI's request-validation status), not the
status 400 the claim states. -/
theorem limit_validation_status_counterexample :
    listProductsEndpoint [] none none 0 0
      = Except.error
          (422, [⟨"limit", "Input should be greater than or equal to 1"⟩])
    ∧ (422 : Nat) ≠ 400 :=
  ⟨rfl, by decide⟩

/-- C7 (amended): whenever the supplied limit is outside 1..100 or the
supplied offset is negative, both listing endpoints reject the request
with a 422 validation error whose entries name exactly the offending
parameters (`limit` when limit is out of range, `offset` when offset is
negative), and the response is the same whatever the stores contain —
the handler never runs, so nothing is read from or written to the
store. -/
theorem invalid_page_params_rejected (store store2 : List ProductDoc)
    (orders orders2 : List OrderDoc) (nameF sizeF : Option String)
    (uid : String) (limit offset : Int)
    (h : limit < 1 ∨ 100 < limit ∨ offset < 0) :
    ∃ errs : List ParamError,
      errs ≠ []
      ∧ (∀ e ∈ errs, e.field = "limit" ∨ e.field = "offset")
      ∧ ((limit < 1 ∨ 100 < limit) → ∃ e ∈ errs, e.field = "limit")
      ∧ (offset < 0 → ∃ e ∈ errs, e.field = "offset")
      ∧ listProductsEndpoint store nameF sizeF limit offset
          = Except.error (422, errs)
      ∧ listProductsEndpoint store2 nameF sizeF limit offset
          = Except.error (422, errs)
      ∧ getUserOrdersEndpoint store orders uid limit offset
          = Except.error (422, errs)
      ∧ getUserOrdersEndpoint store2 orders2 uid limit offset
          = Except.error (422, errs) := by
  refine ⟨checkLimitParam limit ++ checkOffsetParam offset,
    ?hne, ?hfields, ?hlim, ?hoff, ?_, ?_, ?_, ?_⟩
  case hne =>
    rcases h with h | h | h
    · simp [checkLimitParam, h]
    · have h1 : ¬ limit < 1 := by omega
      simp [checkLimitParam, h1, h]
    · simp [checkOffsetParam, h]
  case hfields =>
    intro e he
    rcases List.mem_append.mp he with he | he
    · exact Or.inl (checkLimitParam_fields limit e he)
    · exact Or.inr (checkOffsetParam_fields offset e he)
  case hlim =>
    intro hl
    obtain ⟨e, he, hf⟩ := checkLimitParam_invalid limit hl
    exact ⟨e, List.mem_append_left _ he, hf⟩
  case hoff =>
    intro ho
    refine ⟨⟨"offset", "Input should be greater than or equal to 0"⟩,
      List.mem_append_right _ ?_, rfl⟩
    simp [checkOffsetParam, ho]
  all_goals
    have hval : validatePageParams limit offset
        = Except.error (422, checkLimitParam limit ++ checkOffsetParam offset) := by
      unfold validatePageParams
      rw [if_neg]
      intro hemp
      have hnil : checkLimitParam limit ++ checkOffsetParam offset = [] :=
        List.isEmpty_iff.mp hemp
      rcases h with h | h | h
      · simp [checkLimitParam, h] at hnil
      · have h1 : ¬ limit < 1 := by omega
        simp [checkLimitParam, h1, h] at hnil
      · simp [checkOffsetParam, h] at hnil
    simp [listProductsEndpoint, getUserOrdersEndpoint, hval, Except.map]

/-- Concrete instantiation of `invalid_page_params_rejected` at
limit 0, offset -1. -/
theorem invalid_page_params_rejected_witness :
    ((0:Int) < 1 ∨ (100:Int) < 0 ∨ (-1:Int) < 0)
    ∧ ∃ errs : List ParamError,
        errs ≠ []
        ∧ (∀ e ∈ errs, e.field = "limit" ∨ e.field = "offset")
        ∧ (((0:Int) < 1 ∨ (100:Int) < 0) → ∃ e ∈ errs, e.field = "limit")
        ∧ ((-1:Int) < 0 → ∃ e ∈ errs, e.field = "offset")
        ∧ listProductsEndpoint [] none none 0 (-1)
            = Except.error (422, errs)
        ∧ listProductsEndpoint [prodA] none none 0 (-1)
            = Except.error (422, errs)
        ∧ getUserOrdersEndpoint [] [] "u1" 0 (-1)
            = Except.error (422, errs)
        ∧ getUserOrdersEndpoint [prodA] [sampleOrderDoc] "u1" 0 (-1)
            = Except.error (422, errs) :=
  ⟨by decide,
   invalid_page_params_rejected [] [prodA] [] [sampleOrderDoc] none none
     "u1" 0 (-1) (by decide)⟩

/-- A `Product` request body (src/main.py lines 38-41). -/
structure ProductIn where
  name : String
  price : Rat
  sizes : List Size
deriving DecidableEq

/-- Pydantic validation of `class Size` (src/main.py lines 34-36):
`quantity` must satisfy `ge=0`. -/
def validSizeIn (s : Size) : Bool := decide (0 ≤ s.quantity)

/-- Pydantic validation of `class Product` (src/main.py lines 38-41):
`price` must satisfy `gt=0` and every size entry must validate. The
`sizes` field is declared as a plain `List[Size]`: no constraint on the
list itself, so any list — including the empty one — passes. -/
def validProductIn (p : ProductIn) : Bool :=
  decide (0 < p.price) && p.sizes.all validSizeIn

/-- Pydantic validation of `class OrderItem` / `class CreateOrder`
(src/main.py lines 60-66): each `qty` must satisfy `gt=0`. The `items`
field is declared as a plain `List[OrderItem]`: no constraint on the
list itself, so any list — including the empty one — passes. -/
def validCreateOrderIn (o : CreateOrderIn) : Bool :=
  o.items.all (fun i => decide (0 < i.qty))

/-- The full `POST /products` request path (src/main.py lines 110-125):
pydantic validation (FastAPI rejects an invalid body with 422), then
insertion of exactly one document with a server-set creation
timestamp. -/
def createProductEndpoint (store : List ProductDoc) (newId : String)
    (now : Nat) (p : ProductIn) :
    (Except ErrResp String) × List ProductDoc :=
  if validProductIn p then
    (Except.ok newId, store ++ [⟨newId, p.name, p.price, p.sizes, now⟩])
  else (Except.error ⟨422, "validation error"⟩, store)

/-- The full `POST /orders` request path: pydantic validation (FastAPI
rejects an invalid body with 422), then the `create_order` handler. -/
def createOrderEndpoint (products : List ProductDoc)
    (orders : List OrderDoc) (newId : String) (now : Nat)
    (req : CreateOrderIn) : (Except ErrResp String) × List OrderDoc :=
  if validCreateOrderIn req then create_order products orders newId now req
  else (Except.error ⟨422, "validation error"⟩, orders)

/-- C8 counterexample: a product with an empty `sizes` list and an order
with an empty `items` list are both accepted — each inserts a document —
where the claim states both must be rejected with no insert. -/
theorem empty_lists_accepted_counterexample :
    createProductEndpoint [] "aaaaaaaaaaaaaaaaaaaaaaaa" 0 ⟨"Tee", 1, []⟩
      = (Except.ok "aaaaaaaaaaaaaaaaaaaaaaaa",
         [⟨"aaaaaaaaaaaaaaaaaaaaaaaa", "Tee", 1, [], 0⟩])
    ∧ createOrderEndpoint [] [] "bbbbbbbbbbbbbbbbbbbbbbbb" 0 ⟨"u1", []⟩
      = (Except.ok "bbbbbbbbbbbbbbbbbbbbbbbb",
         [⟨"bbbbbbbbbbbbbbbbbbbbbbbb", "u1", [], 0, "created", 0⟩]) :=
  ⟨rfl, rfl⟩

/-- C8 (amended): neither request model constrains its list field's
length: a product whose `sizes` list is empty (and whose price is
positive) passes validation and is inserted, and an order whose `items`
list is empty passes validation and is inserted with no items and
total 0; only the per-element constraints (`price > 0`,
`quantity ≥ 0`, `qty > 0`) are enforced. -/
theorem empty_lists_accepted (store : List ProductDoc) (newId : String)
    (now : Nat) (p : ProductIn) (hsizes : p.sizes = [])
    (hprice : 0 < p.price) (products : List ProductDoc)
    (orders : List OrderDoc) (newId2 : String) (now2 : Nat)
    (uid : String) :
    createProductEndpoint store newId now p
      = (Except.ok newId, store ++ [⟨newId, p.name, p.price, [], now⟩])
    ∧ createOrderEndpoint products orders newId2 now2 ⟨uid, []⟩
      = (Except.ok newId2,
         orders ++ [⟨newId2, uid, [], 0, "created", now2⟩]) := by
  constructor
  · unfold createProductEndpoint validProductIn
    rw [hsizes]
    simp [hprice]
  · rfl

/-- Concrete instantiation of `empty_lists_accepted`: an empty-sizes
product body and an empty-items order body, both accepted and
inserted. -/
theorem empty_lists_accepted_witness :
    ((⟨"Tee", 1, []⟩ : ProductIn).sizes = []
      ∧ (0:Rat) < (⟨"Tee", 1, []⟩ : ProductIn).price)
    ∧ (createProductEndpoint [prodA] "aaaaaaaaaaaaaaaaaaaaaaaa" 5
          ⟨"Tee", 1, []⟩
        = (Except.ok "aaaaaaaaaaaaaaaaaaaaaaaa",
           [prodA] ++ [⟨"aaaaaaaaaaaaaaaaaaaaaaaa", "Tee", 1, [], 5⟩])
      ∧ createOrderEndpoint [prodA] [sampleOrderDoc]
          "bbbbbbbbbbbbbbbbbbbbbbbb" 6 ⟨"u9", []⟩
        = (Except.ok "bbbbbbbbbbbbbbbbbbbbbbbb",
           [sampleOrderDoc]
             ++ [⟨"bbbbbbbbbbbbbbbbbbbbbbbb", "u9", [], 0, "created", 6⟩])) :=
  ⟨⟨rfl, by decide⟩,
   empty_lists_accepted [prodA] "aaaaaaaaaaaaaaaaaaaaaaaa" 5 ⟨"Tee", 1, []⟩
     rfl (by decide) [prodA] [sampleOrderDoc] "bbbbbbbbbbbbbbbbbbbbbbbb" 6
     "u9"⟩

end ECommerce
